import Mathlib

/-!
Shallow embedding of `bridge.py` (the Xiaozhi MCP ↔ n8n webhook bridge).

The bridge's protocol core is pure once I/O is made explicit:
* inbound WebSocket frames are decoded JSON values (`Json` below, the image
  of Python's `json.loads`; numbers are restricted to integers, which covers
  every value the protocol and the claims exercise);
* `_dispatch` and the `_handle_*` methods become functions from the parsed
  message to the list of frames passed to `_send_json`, plus a flag recording
  whether `self.stop()` was invoked (the `shutdown` branch);
* the single effectful call `_post_to_webhook` is replaced by an oracle
  argument `WebhookOutcome` enumerating its observable results: an
  `httpx.HTTPStatusError` (status code and response text), any other
  exception (its `str`), or a returned value (the parsed JSON body, or the
  raw text as a JSON string — `_format_webhook_response` treats both alike);
* Python attribute errors (calling `.get` on a non-mapping) are modelled by
  `Except PyErr`, since an uncaught exception inside `_dispatch` ends the
  session with no reply;
* the reconnect loop `run` becomes a trace function over a schedule that
  says, for each iteration, whether the stop event is set at the loop-head
  check and whether the connect/session attempt fails.
-/

/-- A decoded JSON value, the image of Python's `json.loads` (with numbers
restricted to integers; no claim involves non-integer numbers). `null` also
stands for Python `None`, which is what `dict.get` yields for a missing key. -/
inductive Json where
  | null
  | bool (b : Bool)
  | num (n : Int)
  | str (s : String)
  | arr (items : List Json)
  | obj (fields : List (String × Json))
deriving Repr

/-- The one Python exception class our modelled code can raise without
catching it: `AttributeError`, from calling `.get` on a non-mapping. -/
inductive PyErr where
  | attributeError
deriving DecidableEq, Repr

/-- `fs` viewed as a Python dict: `fieldOf fs k` is `fs.get(k)`, i.e. the
first binding of `k`, or `None` (= `Json.null`) when the key is absent. -/
def fieldOf (fs : List (String × Json)) (k : String) : Json :=
  (fs.lookup k).getD Json.null

/-- Python `x.get(k)`: the field when `x` is a mapping, `AttributeError`
otherwise (lists, strings, numbers, booleans and `None` have no `.get`). -/
def Json.pyGet (j : Json) (k : String) : Except PyErr Json :=
  match j with
  | .obj fs => .ok (fieldOf fs k)
  | _ => .error .attributeError

/-- Python `x.get(k, d)`: like `pyGet` but yielding `d` when the key is
absent (a present `null` value is still returned as `null`). -/
def Json.pyGetD (j : Json) (k : String) (d : Json) : Except PyErr Json :=
  match j with
  | .obj fs => .ok ((fs.lookup k).getD d)
  | _ => .error .attributeError

/-- Python truthiness of a decoded-JSON value: `None`, `False`, `0`, `""`,
`[]` and the empty dict are falsy, everything else truthy. -/
def Json.truthy : Json → Bool
  | .null => false
  | .bool b => b
  | .num n => n != 0
  | .str s => s != ""
  | .arr items => !items.isEmpty
  | .obj fields => !fields.isEmpty

/-- Python `x or ` followed by an empty dict, as in the handlers'
`message.get("params") or ` default: keep `x` when truthy, else the
empty object. -/
def Json.orEmptyObj (j : Json) : Json :=
  if j.truthy then j else .obj []

/-- Is the value a JSON object (a Python `Mapping`)? `json.loads` produces
`dict` for objects and nothing else satisfying `isinstance(-, Mapping)`. -/
def Json.isObj : Json → Bool
  | .obj _ => true
  | _ => false

/-- The apostrophe character (spelled by code point). -/
def squote : Char := Char.ofNat 39

/-- Hexadecimal digit (lowercase), as Python prints escapes. -/
def hexDigit (n : Nat) : Char :=
  if n < 10 then Char.ofNat (48 + n) else Char.ofNat (87 + n)

/-- Escape one character inside a Python string literal quoted by `q`
(Python `repr` escaping: backslash, the quote, and control characters). -/
def pyEscapeChar (q : Char) (c : Char) : String :=
  if c = '\\' then "\\\\"
  else if c = q then "\\" ++ String.singleton q
  else if c = '\n' then "\\n"
  else if c = '\r' then "\\r"
  else if c = '\t' then "\\t"
  else if c.toNat < 32 then
    "\\x" ++ String.singleton (hexDigit (c.toNat / 16))
      ++ String.singleton (hexDigit (c.toNat % 16))
  else String.singleton c

/-- Python `repr` of a string: single-quoted, unless the string contains a
single quote and no double quote, in which case double-quoted. -/
def pyReprString (s : String) : String :=
  let q := if s.contains squote && !(s.contains '"') then '"' else squote
  String.singleton q ++ String.join (s.toList.map (pyEscapeChar q)) ++ String.singleton q

mutual

/-- Python `repr` of a decoded-JSON value (what `str` and f-strings print
for lists and dicts, and `repr` prints for any value). -/
def pyRepr : Json → String
  | .null => "None"
  | .bool true => "True"
  | .bool false => "False"
  | .num n => toString n
  | .str s => pyReprString s
  | .arr items => "[" ++ pyReprItems items ++ "]"
  | .obj fields => "\x7b" ++ pyReprFields fields ++ "\x7d"

/-- Comma-separated `repr`s of list items. -/
def pyReprItems : List Json → String
  | [] => ""
  | [x] => pyRepr x
  | x :: rest => pyRepr x ++ ", " ++ pyReprItems rest

/-- Comma-separated `key: value` `repr`s of dict entries. -/
def pyReprFields : List (String × Json) → String
  | [] => ""
  | [(k, v)] => pyReprString k ++ ": " ++ pyRepr v
  | (k, v) :: rest => pyReprString k ++ ": " ++ pyRepr v ++ ", " ++ pyReprFields rest

end

/-- Python `str` of a decoded-JSON value: the string itself for strings,
otherwise the same text as `repr`. -/
def pyStr : Json → String
  | .str s => s
  | j => pyRepr j

/-- Escape one character as `json.dumps(..., ensure_ascii=False)` does:
only the double quote, the backslash and control characters are escaped. -/
def jsonEscapeChar (c : Char) : String :=
  if c = '"' then "\\\""
  else if c = '\\' then "\\\\"
  else if c = '\n' then "\\n"
  else if c = '\r' then "\\r"
  else if c = '\t' then "\\t"
  else if c = Char.ofNat 8 then "\\b"
  else if c = Char.ofNat 12 then "\\f"
  else if c.toNat < 32 then
    "\\u00" ++ String.singleton (hexDigit (c.toNat / 16))
      ++ String.singleton (hexDigit (c.toNat % 16))
  else String.singleton c

/-- `json.dumps(s, ensure_ascii=False)` body of a string, without quotes. -/
def jsonEscape (s : String) : String :=
  String.join (s.toList.map jsonEscapeChar)

mutual

/-- `json.dumps(x, ensure_ascii=False)` with the default separators
(a comma-space between items, a colon-space after keys). -/
def Json.dumps : Json → String
  | .null => "null"
  | .bool true => "true"
  | .bool false => "false"
  | .num n => toString n
  | .str s => "\"" ++ jsonEscape s ++ "\""
  | .arr items => "[" ++ dumpsItems items ++ "]"
  | .obj fields => "\x7b" ++ dumpsFields fields ++ "\x7d"

/-- Comma-space-separated dumps of array items. -/
def dumpsItems : List Json → String
  | [] => ""
  | [x] => Json.dumps x
  | x :: rest => Json.dumps x ++ ", " ++ dumpsItems rest

/-- Comma-space-separated `"key": value` dumps of object entries. -/
def dumpsFields : List (String × Json) → String
  | [] => ""
  | [(k, v)] => "\"" ++ jsonEscape k ++ "\": " ++ Json.dumps v
  | (k, v) :: rest =>
      "\"" ++ jsonEscape k ++ "\": " ++ Json.dumps v ++ ", " ++ dumpsFields rest

end

/-- Python `x == s` for a Python string `s`: true exactly when `x` is the
equal string (Python equality never identifies a `str` with another type). -/
def Json.eqStr (j : Json) (s : String) : Bool :=
  match j with
  | .str t => t == s
  | _ => false

/-- Python `x is None`: is the value the `None` object? -/
def Json.isNull : Json → Bool
  | .null => true
  | _ => false

/-- Python `str.strip()` with no argument: remove leading and trailing
whitespace (modelled over the ASCII whitespace characters plus vertical tab
and form feed, the ones the protocol can carry). -/
def pyIsSpace (c : Char) : Bool :=
  c = ' ' || c = '\t' || c = '\n' || c = '\r' || c = Char.ofNat 11 || c = Char.ofNat 12

/-- Python `s.strip()`. -/
def pyStrip (s : String) : String :=
  String.mk (((s.toList.dropWhile pyIsSpace).reverse.dropWhile pyIsSpace).reverse)

/-- `ToolSpec` from `bridge.py`: the MCP tool this bridge exposes. -/
structure ToolSpec where
  name : String
  description : String

/-- `ToolSpec.to_mcp_dict`: the tool as an MCP schema object. -/
def ToolSpec.to_mcp_dict (t : ToolSpec) : Json :=
  .obj
    [("name", .str t.name),
     ("description", .str t.description),
     ("inputSchema", .obj
       [("type", .str "object"),
        ("properties", .obj
          [("action", .obj
            [("type", .str "string"),
             ("description", .str
               "Short Gmail action identifier (e.g. \x27send_email\x27).")]),
           ("payload", .obj
            [("type", .str "object"),
             ("description", .str
               "Details needed to execute the Gmail action.")])]),
        ("required", .arr [.str "action"]),
        ("additionalProperties", .bool true)])]

/-- The configuration of one `XiaozhiMCPBridge` instance (the constructor
arguments; the mutable parts — the stop event and the HTTP client — are
modelled separately). The reconnect delay is a rational standing for the
Python float. -/
structure XiaozhiMCPBridge where
  ws_url : String
  webhook_url : String
  tool : ToolSpec
  reconnect_delay : Rat

/-- The bridge built from the source's default CLI configuration
(`MCP_TOOL_NAME` default, tool-description default, delay default 5.0). -/
def defaultBridge : XiaozhiMCPBridge :=
  { ws_url := "wss://api.xiaozhi.me/mcp/"
    webhook_url := "https://n8n-elrsppnn.n8x.web.id/webhook/xiaozhi"
    tool :=
      { name := "gmail_action"
        description := "Forward Gmail-related commands to the Gmail n8n workflow." }
    reconnect_delay := 5 }

/-- Observable outcome of `_post_to_webhook payload`, the one effectful call
inside `_handle_tools_call`, passed in as an oracle:
* `httpError status body`: `response.raise_for_status()` raised
  `httpx.HTTPStatusError`; `status` is `response.status_code`, `body` is
  `response.text`;
* `otherError msg`: any other exception (network, timeout, or the
  `RuntimeError` for an uninitialised client); `msg` is `str(exc)`;
* `success v`: the parsed JSON body, or — when the body is not valid
  JSON — `response.text` embedded as `Json.str` (exactly how
  `_format_webhook_response` receives it). -/
inductive WebhookOutcome where
  | httpError (status : Nat) (body : String)
  | otherError (msg : String)
  | success (v : Json)

/-- One iteration of the `for item in data` loop inside
`_format_webhook_response` for array responses: append `output.strip()`
when the item is a mapping whose `output` is a string with non-blank
content. -/
def collectStep (outputs : List String) (item : Json) : List String :=
  match item with
  | .obj fs =>
      match fs.lookup "output" with
      | some (.str output) =>
          if pyStrip output != "" then outputs ++ [pyStrip output] else outputs
      | _ => outputs
  | _ => outputs

/-- The whole accumulation loop: `outputs` starts empty. -/
def collectOutputs (items : List Json) : List String :=
  items.foldl collectStep []

/-- `XiaozhiMCPBridge._format_webhook_response`: normalise the webhook's
decoded response into display text. -/
def _format_webhook_response (data : Json) : String :=
  match data with
  | .obj fs =>
      match fs.lookup "message" with
      | some (.str message) =>
          if pyStrip message != "" then message else Json.dumps (.obj fs)
      | _ => Json.dumps (.obj fs)
  | .arr items =>
      let outputs := collectOutputs items
      if !outputs.isEmpty then String.intercalate "\n\n" outputs
      else Json.dumps (.arr items)
  | other => pyStr other

/-- Outbound success frame `\x7b"jsonrpc": "2.0", "id": id, "result": r\x7d`
as built throughout `bridge.py`. -/
def rpcResult (idv : Json) (res : Json) : Json :=
  .obj [("jsonrpc", .str "2.0"), ("id", idv), ("result", res)]

/-- Outbound error frame with `code` and `message`, as built throughout
`bridge.py`. -/
def rpcError (idv : Json) (code : Int) (msg : String) : Json :=
  .obj [("jsonrpc", .str "2.0"), ("id", idv),
        ("error", .obj [("code", .num code), ("message", .str msg)])]

/-- `XiaozhiMCPBridge._handle_initialize`: echo the requested protocol
version (default `2024-11-05`) and advertise tool-call capability. Raises
`AttributeError` when `params` is truthy but not a mapping. -/
def _handle_initialize (message : Json) : Except PyErr (List Json) :=
  match message.pyGet "id" with
  | .error e => .error e
  | .ok message_id =>
  match message.pyGet "params" with
  | .error e => .error e
  | .ok p =>
  match p.orEmptyObj.pyGetD "protocolVersion" (.str "2024-11-05") with
  | .error e => .error e
  | .ok requested_version =>
      .ok [rpcResult message_id
        (.obj [("protocolVersion", requested_version),
               ("capabilities", .obj [("tools", .obj [("call", .obj [])])])])]

/-- `XiaozhiMCPBridge._handle_tools_list`: reply with the one-tool list. -/
def _handle_tools_list (bridge : XiaozhiMCPBridge) (message : Json) :
    Except PyErr (List Json) :=
  match message.pyGet "id" with
  | .error e => .error e
  | .ok message_id =>
      .ok [rpcResult message_id (.obj [("tools", .arr [bridge.tool.to_mcp_dict])])]

/-- `XiaozhiMCPBridge._handle_tools_call`. The result's first component is
the body handed to `_post_to_webhook` (`none` when validation failed before
the webhook call); the second is the list of frames sent. -/
def _handle_tools_call (bridge : XiaozhiMCPBridge) (wh : WebhookOutcome)
    (message : Json) : Except PyErr (Option Json × List Json) :=
  match message.pyGet "id" with
  | .error e => .error e
  | .ok message_id =>
  match message.pyGet "params" with
  | .error e => .error e
  | .ok p =>
  let params := p.orEmptyObj
  match params.pyGet "name" with
  | .error e => .error e
  | .ok tool_name =>
  match params.pyGet "arguments" with
  | .error e => .error e
  | .ok arguments =>
  match params.pyGet "callId" with
  | .error e => .error e
  | .ok call_id =>
  if !(tool_name.eqStr bridge.tool.name) then
    .ok (none, [rpcError message_id (-32602)
      ("Unsupported tool \x27" ++ pyStr tool_name ++ "\x27")])
  else
    match arguments with
    | .obj argFields =>
        let action := fieldOf argFields "action"
        match action with
        | .str a =>
          if pyStrip a == "" then
            .ok (none, [rpcError message_id (-32602)
              "Tool arguments must include non-empty \x27action\x27"])
          else
            let raw_payload := fieldOf argFields "payload"
            let payload_data := if raw_payload.isObj then raw_payload else .null
            let payload := Json.obj
              [("action", action),
               ("payload", payload_data),
               ("call_id", call_id),
               ("tool", tool_name),
               ("arguments", arguments)]
            match wh with
            | .httpError status body =>
                .ok (some payload, [rpcError message_id (-32010)
                  ("Gmail webhook returned HTTP " ++ toString status ++ ": "
                    ++ body.take 2000)])
            | .otherError msg =>
                .ok (some payload, [rpcError message_id (-32001)
                  ("Gmail agent error: " ++ msg)])
            | .success data =>
                let content_text := _format_webhook_response data
                let result := Json.obj
                  ([("content", .arr
                      [.obj [("type", .str "text"),
                             ("text", .str content_text)]]),
                    ("isError", .bool false)]
                   ++ (if call_id.truthy then [("callId", call_id)] else []))
                .ok (some payload, [rpcResult message_id result])
        | _ =>
            .ok (none, [rpcError message_id (-32602)
              "Tool arguments must include non-empty \x27action\x27"])
    | _ =>
        .ok (none, [rpcError message_id (-32602)
          "Tool arguments must be an object"])

/-- `XiaozhiMCPBridge._dispatch`: route one parsed inbound message. The
result is the list of frames sent plus whether `self.stop()` was invoked
(the `shutdown` branch). Raises `AttributeError` when `message` is not a
mapping, or a handler trips on a truthy non-mapping `params`. -/
def _dispatch (bridge : XiaozhiMCPBridge) (wh : WebhookOutcome)
    (message : Json) : Except PyErr (List Json × Bool) :=
  match message.pyGet "method" with
  | .error e => .error e
  | .ok method =>
  match message.pyGet "id" with
  | .error e => .error e
  | .ok message_id =>
  if method.eqStr "initialize" then
    match _handle_initialize message with
    | .error e => .error e
    | .ok sent => .ok (sent, false)
  else if method.eqStr "notifications/initialized" then
    .ok ([], false)
  else if method.eqStr "tools/list" then
    match _handle_tools_list bridge message with
    | .error e => .error e
    | .ok sent => .ok (sent, false)
  else if method.eqStr "tools/call" then
    match _handle_tools_call bridge wh message with
    | .error e => .error e
    | .ok r => .ok (r.2, false)
  else if method.eqStr "ping" then
    .ok ([rpcResult message_id (.obj [])], false)
  else if method.eqStr "shutdown" then
    .ok ([rpcResult message_id (.obj [])], true)
  else
    if !message_id.isNull then
      .ok ([rpcError message_id (-32601)
        ("Method \x27" ++ pyStr method ++ "\x27 not implemented by gmail bridge")], false)
    else
      .ok ([], false)

/-- The mutable state `stop()` acts on: the `_stopping` `asyncio.Event`
(set-only; the source never clears it). -/
structure BridgeState where
  stopping : Bool
deriving DecidableEq, Repr

/-- `XiaozhiMCPBridge.stop`: set the stop event. -/
def stop (s : BridgeState) : BridgeState :=
  { s with stopping := true }

/-- One observable event of the `run` loop: a `websockets.connect` attempt,
or an `asyncio.sleep` for the given number of seconds. -/
inductive RunEvent where
  | connect
  | sleep (d : Rat)
deriving DecidableEq, Repr

/-- Trace of `XiaozhiMCPBridge.run`'s `while` loop. Each schedule entry is
one loop iteration: the first component is whether the `_stopping` event is
set at the loop-head check, the second whether the connect-and-session
attempt raises (a connect failure or a session-ending error). On success the
backoff is reset to `base` (`backoff = self.reconnect_delay` after
`connected`); on failure the loop sleeps `backoff` seconds and then sets
`backoff = min(backoff * 2, 60)`. The schedule running out models the
process being externally terminated; the loop exiting via a set stop flag
models `run()` returning normally. -/
def runLoop (base : Rat) : Rat → List (Bool × Bool) → List RunEvent
  | _, [] => []
  | backoff, (stopSet, fails) :: rest =>
      if stopSet then []
      else if fails then
        .connect :: .sleep backoff :: runLoop base (min (backoff * 2) 60) rest
      else
        .connect :: runLoop base base rest

/-- `XiaozhiMCPBridge.run`: the loop starts with `backoff` equal to the
configured reconnect delay. -/
def run (bridge : XiaozhiMCPBridge) (sched : List (Bool × Bool)) : List RunEvent :=
  runLoop bridge.reconnect_delay bridge.reconnect_delay sched

/-- The sleep durations occurring in a run trace, in order. -/
def sleeps (events : List RunEvent) : List Rat :=
  events.filterMap fun e =>
    match e with
    | .sleep d => some d
    | .connect => none

/-! ## Statement-side vocabulary and basic lemmas -/

/-- The validity test the source applies to `arguments.get("action")`:
`isinstance(action, str) and action.strip()`. -/
def actionValid : Json → Bool
  | .str a => pyStrip a != ""
  | _ => false

/-- A message whose `params` field the handlers tolerate: falsy (absent,
null, false, zero, empty string/array/object — replaced by the empty dict
by `params or` default) or a mapping. A truthy non-mapping `params` makes
`params.get(...)` raise `AttributeError`. -/
def paramsAdmissible (fs : List (String × Json)) : Prop :=
  (fieldOf fs "params").truthy = false ∨ (fieldOf fs "params").isObj = true

/-- `out` is a JSON-RPC response frame — a result or an error — echoing
the request id `idv`. -/
def isResponseTo (idv out : Json) : Prop :=
  (∃ r, out = rpcResult idv r) ∨ ∃ c m, out = rpcError idv c m

/-- Field lookup on a response object (`none` when absent or not an
object), used to state which keys a result carries. -/
def lookupField (j : Json) (k : String) : Option Json :=
  match j with
  | .obj fs => fs.lookup k
  | _ => none

/-- The method names `_dispatch` recognises. -/
def knownMethods : List String :=
  ["initialize", "notifications/initialized", "tools/list", "tools/call",
   "ping", "shutdown"]

theorem eqStr_true_iff (j : Json) (s : String) :
    j.eqStr s = true ↔ j = .str s := by
  cases j <;> simp [Json.eqStr]

theorem eqStr_false_iff (j : Json) (s : String) :
    j.eqStr s = false ↔ j ≠ .str s := by
  rw [← Bool.not_eq_true, not_iff_not]
  exact eqStr_true_iff j s

theorem isNull_false_iff (j : Json) : j.isNull = false ↔ j ≠ .null := by
  cases j <;> simp [Json.isNull]

theorem orEmptyObj_obj (pf : List (String × Json)) :
    (Json.obj pf).orEmptyObj = .obj pf := by
  cases pf <;> simp [Json.orEmptyObj, Json.truthy]

theorem admissible_orEmptyObj (fs : List (String × Json))
    (hp : paramsAdmissible fs) :
    ∃ pf, (fieldOf fs "params").orEmptyObj = .obj pf := by
  rcases hp with h | h
  · exact ⟨[], by simp [Json.orEmptyObj, h]⟩
  · cases hj : fieldOf fs "params" <;> rw [hj] at h <;>
      simp [Json.isObj] at h
    exact ⟨_, orEmptyObj_obj _⟩

theorem pyGet_obj (fs : List (String × Json)) (k : String) :
    (Json.obj fs).pyGet k = .ok (fieldOf fs k) := rfl

theorem tools_call_sends_one (bridge : XiaozhiMCPBridge) (wh : WebhookOutcome)
    (fs pf : List (String × Json))
    (hp : (fieldOf fs "params").orEmptyObj = .obj pf) :
    ∃ posted out, _handle_tools_call bridge wh (.obj fs) = .ok (posted, [out]) ∧
      isResponseTo (fieldOf fs "id") out := by
  unfold _handle_tools_call
  simp only [pyGet_obj, hp]
  repeat' split
  all_goals first
    | exact ⟨_, _, rfl, Or.inl ⟨_, rfl⟩⟩
    | exact ⟨_, _, rfl, Or.inr ⟨_, _, rfl⟩⟩

theorem pyGetD_obj (fs : List (String × Json)) (k : String) (d : Json) :
    (Json.obj fs).pyGetD k d = .ok ((fs.lookup k).getD d) := rfl

theorem initialize_sends_one (fs pf : List (String × Json))
    (hp : (fieldOf fs "params").orEmptyObj = .obj pf) :
    ∃ out, _handle_initialize (.obj fs) = .ok [out] ∧
      isResponseTo (fieldOf fs "id") out := by
  unfold _handle_initialize
  simp only [pyGet_obj, hp, pyGetD_obj]
  exact ⟨_, rfl, Or.inl ⟨_, rfl⟩⟩

theorem tools_list_sends_one (bridge : XiaozhiMCPBridge)
    (fs : List (String × Json)) :
    ∃ out, _handle_tools_list bridge (.obj fs) = .ok [out] ∧
      isResponseTo (fieldOf fs "id") out :=
  ⟨_, rfl, Or.inl ⟨_, rfl⟩⟩

theorem isNull_true_iff (j : Json) : j.isNull = true ↔ j = .null := by
  cases j <;> simp [Json.isNull]

/-- Structural core shared by the dispatch claims: on a mapping message
with an admissible `params`, `_dispatch` succeeds, sends nothing for
`notifications/initialized`, and otherwise — when the id is non-null —
sends exactly one response frame echoing the id. -/
theorem dispatch_core (bridge : XiaozhiMCPBridge) (wh : WebhookOutcome)
    (fs : List (String × Json)) (pf : List (String × Json))
    (hpf : (fieldOf fs "params").orEmptyObj = .obj pf) :
    ∃ sent stopped, _dispatch bridge wh (.obj fs) = .ok (sent, stopped) ∧
      ((fieldOf fs "method").eqStr "notifications/initialized" = true → sent = []) ∧
      ((fieldOf fs "method").eqStr "notifications/initialized" = false →
        fieldOf fs "id" ≠ Json.null →
        ∃ out, sent = [out] ∧ isResponseTo (fieldOf fs "id") out) := by
  unfold _dispatch
  simp only [pyGet_obj]
  split
  · next hinit =>
    obtain ⟨out, heq, hresp⟩ := initialize_sends_one fs pf hpf
    rw [heq]
    refine ⟨[out], false, rfl, ?_, fun _ _ => ⟨out, rfl, hresp⟩⟩
    intro hn
    rw [eqStr_true_iff] at hinit
    rw [hinit] at hn
    simp [Json.eqStr] at hn
  · split
    · next hn =>
      refine ⟨[], false, rfl, fun _ => rfl, ?_⟩
      intro hfalse _
      rw [hn] at hfalse
      cases hfalse
    · next hn =>
      have hnot : (fieldOf fs "method").eqStr "notifications/initialized" = false := by
        cases h : (fieldOf fs "method").eqStr "notifications/initialized"
        · rfl
        · exact absurd h hn
      have hne : (fieldOf fs "method").eqStr "notifications/initialized" = true → False := by
        intro h
        rw [hnot] at h
        cases h
      split
      · obtain ⟨out, heq, hresp⟩ := tools_list_sends_one bridge fs
        rw [heq]
        exact ⟨[out], false, rfl, fun h => absurd h hne, fun _ _ => ⟨out, rfl, hresp⟩⟩
      · split
        · obtain ⟨posted, out, heq, hresp⟩ := tools_call_sends_one bridge wh fs pf hpf
          rw [heq]
          exact ⟨[out], false, rfl, fun h => absurd h hne, fun _ _ => ⟨out, rfl, hresp⟩⟩
        · split
          · exact ⟨_, false, rfl, fun h => absurd h hne,
              fun _ _ => ⟨_, rfl, Or.inl ⟨_, rfl⟩⟩⟩
          · split
            · exact ⟨_, true, rfl, fun h => absurd h hne,
                fun _ _ => ⟨_, rfl, Or.inl ⟨_, rfl⟩⟩⟩
            · cases hidn : (fieldOf fs "id").isNull
              · simp only [hidn, Bool.not_false, if_true]
                exact ⟨_, false, rfl, fun h => absurd h hne,
                  fun _ _ => ⟨_, rfl, Or.inr ⟨_, _, rfl⟩⟩⟩
              · simp only [hidn, Bool.not_true, Bool.false_eq_true, if_false]
                refine ⟨[], false, rfl, fun _ => rfl, ?_⟩
                intro _ hid
                exact absurd ((isNull_true_iff _).mp hidn) hid

/-- C1 (amended): for every inbound frame that parses as a JSON object,
carries a non-null `id`, and whose `params` field is falsy (absent and null
included) or a JSON object, the dispatcher sends exactly one outbound
response — a result or an error echoing the `id` — except for the
notification method `notifications/initialized`, which never receives a
reply. (The admissibility proviso is forced: a truthy non-object `params`
makes the `initialize`/`tools/call` handlers raise `AttributeError`, ending
the session with no response — see the counterexample.) -/
theorem C1_nonnull_id_gets_exactly_one_response (bridge : XiaozhiMCPBridge)
    (wh : WebhookOutcome) (fs : List (String × Json))
    (hid : fieldOf fs "id" ≠ Json.null) (hp : paramsAdmissible fs) :
    ∃ sent stopped, _dispatch bridge wh (.obj fs) = .ok (sent, stopped) ∧
      ((fieldOf fs "method").eqStr "notifications/initialized" = true → sent = []) ∧
      ((fieldOf fs "method").eqStr "notifications/initialized" = false →
        ∃ out, sent = [out] ∧ isResponseTo (fieldOf fs "id") out) := by
  obtain ⟨pf, hpf⟩ := admissible_orEmptyObj fs hp
  obtain ⟨sent, stopped, heq, h1, h2⟩ := dispatch_core bridge wh fs pf hpf
  exact ⟨sent, stopped, heq, h1, fun hn => h2 hn hid⟩

/-- C1 counterexample: this frame parses as a JSON object, carries the
non-null id `1`, and its method is `tools/call` (not a notification), yet
`_dispatch` raises `AttributeError` — `params` is the truthy non-object
`"x"`, so `params.get("name")` crashes — and zero outbound responses are
produced instead of exactly one. -/
theorem C1_counterexample :
    Json.num 1 ≠ Json.null ∧
    _dispatch defaultBridge (.success .null)
      (.obj [("id", .num 1), ("method", .str "tools/call"), ("params", .str "x")])
      = .error .attributeError :=
  ⟨fun h => Json.noConfusion h, rfl⟩

/-- Witness for C1: a concrete `ping` with id 1 gets exactly one reply. -/
theorem C1_witness :
    ∃ sent stopped,
      _dispatch defaultBridge (.success .null)
        (.obj [("id", .num 1), ("method", .str "ping")]) = .ok (sent, stopped) ∧
      ((fieldOf [("id", Json.num 1), ("method", Json.str "ping")] "method").eqStr
          "notifications/initialized" = true → sent = []) ∧
      ((fieldOf [("id", Json.num 1), ("method", Json.str "ping")] "method").eqStr
          "notifications/initialized" = false →
        ∃ out, sent = [out] ∧
          isResponseTo (fieldOf [("id", Json.num 1), ("method", Json.str "ping")] "id") out) :=
  C1_nonnull_id_gets_exactly_one_response defaultBridge (.success .null) _
    (fun h => Json.noConfusion h) (Or.inl rfl)

theorem tools_call_null_params_reply (bridge : XiaozhiMCPBridge)
    (wh : WebhookOutcome) (fs : List (String × Json))
    (hmeth : fieldOf fs "method" = .str "tools/call")
    (hparams : fieldOf fs "params" = .null) :
    _dispatch bridge wh (.obj fs) =
      .ok ([rpcError (fieldOf fs "id") (-32602) "Unsupported tool \x27None\x27"],
        false) := by
  simp only [ _dispatch, _handle_tools_call, pyGet_obj, hmeth, hparams]
  rfl

/-- C10: for every inbound frame that parses as a JSON object, dispatch is
total as long as `params` is falsy or an object — in particular a missing
or null `method`, `id`, `params`, `name` or `arguments` never raises — and
a `tools/call` whose `params` is absent or null is answered with the −32602
error naming the unsupported tool `None`. -/
theorem C10_dispatch_total (bridge : XiaozhiMCPBridge) (wh : WebhookOutcome)
    (fs : List (String × Json)) (hp : paramsAdmissible fs) :
    (∃ r, _dispatch bridge wh (.obj fs) = .ok r) ∧
    (fieldOf fs "method" = .str "tools/call" → fieldOf fs "params" = .null →
      _dispatch bridge wh (.obj fs) =
        .ok ([rpcError (fieldOf fs "id") (-32602) "Unsupported tool \x27None\x27"],
          false)) := by
  constructor
  · obtain ⟨pf, hpf⟩ := admissible_orEmptyObj fs hp
    obtain ⟨sent, stopped, heq, -, -⟩ := dispatch_core bridge wh fs pf hpf
    exact ⟨_, heq⟩
  · exact tools_call_null_params_reply bridge wh fs

/-- Witness for C10: a concrete `tools/call` with no `params` at all is
answered with the error naming tool `None` rather than crashing. -/
theorem C10_witness :
    (∃ r, _dispatch defaultBridge (.success .null)
        (.obj [("id", .num 3), ("method", .str "tools/call")]) = .ok r) ∧
    (fieldOf [("id", Json.num 3), ("method", Json.str "tools/call")] "method"
        = .str "tools/call" →
      fieldOf [("id", Json.num 3), ("method", Json.str "tools/call")] "params"
        = .null →
      _dispatch defaultBridge (.success .null)
        (.obj [("id", .num 3), ("method", .str "tools/call")]) =
        .ok ([rpcError
          (fieldOf [("id", Json.num 3), ("method", Json.str "tools/call")] "id")
          (-32602) "Unsupported tool \x27None\x27"], false)) :=
  C10_dispatch_total defaultBridge (.success .null) _ (Or.inl rfl)

/-- C9: for every inbound message (a JSON object) whose `method` is none of
the recognised ones, a non-null `id` gets exactly the −32601
method-not-implemented error echoing the `id`, and a null or absent `id`
produces zero outbound messages. -/
theorem C9_unknown_method (bridge : XiaozhiMCPBridge) (wh : WebhookOutcome)
    (fs : List (String × Json))
    (hm : ∀ s ∈ knownMethods, (fieldOf fs "method").eqStr s = false) :
    (fieldOf fs "id" ≠ Json.null →
      _dispatch bridge wh (.obj fs) =
        .ok ([rpcError (fieldOf fs "id") (-32601)
          ("Method \x27" ++ pyStr (fieldOf fs "method")
            ++ "\x27 not implemented by gmail bridge")], false)) ∧
    (fieldOf fs "id" = Json.null →
      _dispatch bridge wh (.obj fs) = .ok ([], false)) := by
  have h1 := hm "initialize" (by simp [knownMethods])
  have h2 := hm "notifications/initialized" (by simp [knownMethods])
  have h3 := hm "tools/list" (by simp [knownMethods])
  have h4 := hm "tools/call" (by simp [knownMethods])
  have h5 := hm "ping" (by simp [knownMethods])
  have h6 := hm "shutdown" (by simp [knownMethods])
  constructor
  · intro hid
    have hidn : (fieldOf fs "id").isNull = false := (isNull_false_iff _).mpr hid
    simp only [ _dispatch, pyGet_obj, h1, h2, h3, h4, h5, h6, hidn]
    rfl
  · intro hid
    have hidn : (fieldOf fs "id").isNull = true := (isNull_true_iff _).mpr hid
    simp only [ _dispatch, pyGet_obj, h1, h2, h3, h4, h5, h6, hidn]
    rfl

/-- Witness for C9: the unknown method `bogus` with id 9 gets the −32601
error; the same method with a null id gets nothing. -/
theorem C9_witness :
    (fieldOf [("id", Json.num 9), ("method", Json.str "bogus")] "id" ≠ Json.null →
      _dispatch defaultBridge (.success .null)
        (.obj [("id", .num 9), ("method", .str "bogus")]) =
        .ok ([rpcError
          (fieldOf [("id", Json.num 9), ("method", Json.str "bogus")] "id")
          (-32601)
          ("Method \x27"
            ++ pyStr (fieldOf [("id", Json.num 9), ("method", Json.str "bogus")] "method")
            ++ "\x27 not implemented by gmail bridge")], false)) ∧
    (fieldOf [("id", Json.num 9), ("method", Json.str "bogus")] "id" = Json.null →
      _dispatch defaultBridge (.success .null)
        (.obj [("id", .num 9), ("method", .str "bogus")]) = .ok ([], false)) :=
  C9_unknown_method defaultBridge (.success .null) _ (by decide)


/-- C2: `tools/call` validates in order — first `params.name` must equal
the configured tool name (else −32602 naming the unsupported tool), then
`params.arguments` must be an object (else −32602 "Tool arguments must be
an object"), then `arguments.action` must be a string that is non-empty
after trimming whitespace (else −32602 naming `action`). Each failure
echoes the request `id` and stops further processing (the webhook is not
called: the posted body is `none`), and a `payload` that is present but not
an object is treated as absent — the call proceeds and the forwarded body
carries a null `payload` — rather than being an error. -/
theorem C2_tools_call_validation (bridge : XiaozhiMCPBridge)
    (wh : WebhookOutcome) (fs pf : List (String × Json))
    (hp : fieldOf fs "params" = .obj pf) :
    ((fieldOf pf "name").eqStr bridge.tool.name = false →
      _handle_tools_call bridge wh (.obj fs) = .ok (none,
        [rpcError (fieldOf fs "id") (-32602)
          ("Unsupported tool \x27" ++ pyStr (fieldOf pf "name") ++ "\x27")])) ∧
    ((fieldOf pf "name").eqStr bridge.tool.name = true →
      (fieldOf pf "arguments").isObj = false →
      _handle_tools_call bridge wh (.obj fs) = .ok (none,
        [rpcError (fieldOf fs "id") (-32602) "Tool arguments must be an object"])) ∧
    (∀ af, (fieldOf pf "name").eqStr bridge.tool.name = true →
      fieldOf pf "arguments" = .obj af →
      actionValid (fieldOf af "action") = false →
      _handle_tools_call bridge wh (.obj fs) = .ok (none,
        [rpcError (fieldOf fs "id") (-32602)
          "Tool arguments must include non-empty \x27action\x27"])) ∧
    (∀ af, (fieldOf pf "name").eqStr bridge.tool.name = true →
      fieldOf pf "arguments" = .obj af →
      actionValid (fieldOf af "action") = true →
      (fieldOf af "payload").isObj = false →
      ∃ out, _handle_tools_call bridge wh (.obj fs) = .ok (some (Json.obj
        [("action", fieldOf af "action"),
         ("payload", Json.null),
         ("call_id", fieldOf pf "callId"),
         ("tool", fieldOf pf "name"),
         ("arguments", fieldOf pf "arguments")]), [out])) := by
  refine ⟨?_, ?_, ?_, ?_⟩
  · intro hname
    simp only [ _handle_tools_call, pyGet_obj, hp, orEmptyObj_obj, hname]
    rfl
  · intro hname hargs
    simp only [ _handle_tools_call, pyGet_obj, hp, orEmptyObj_obj, hname]
    cases harg : fieldOf pf "arguments" <;> rw [harg] at hargs
    case obj => simp [Json.isObj] at hargs
    all_goals simp only [harg]
    all_goals rfl
  · intro af hname hargs haction
    simp only [ _handle_tools_call, pyGet_obj, hp, orEmptyObj_obj, hname, hargs]
    cases hac : fieldOf af "action" <;> rw [hac] at haction <;>
      simp only [actionValid] at haction
    case str a =>
      have h : (pyStrip a == "") = true := by
        cases h2 : pyStrip a == ""
        · simp [bne, h2] at haction
        · rfl
      simp only [hac, h]
      rfl
    all_goals simp only [hac]
    all_goals rfl
  · intro af hname hargs haction hpay
    simp only [ _handle_tools_call, pyGet_obj, hp, orEmptyObj_obj, hname, hargs]
    cases hac : fieldOf af "action" <;> rw [hac] at haction <;>
      simp only [actionValid] at haction
    case str a =>
      have h : (pyStrip a == "") = false := by
        cases h2 : pyStrip a == ""
        · rfl
        · simp [bne, h2] at haction
      simp only [hac, h, hpay, Bool.false_eq_true, if_false]
      cases wh <;> exact ⟨_, rfl⟩
    all_goals cases haction

/-- Witness for C2 at a concrete request: id 5, `params` the object with
`name` `"other"` (wrong tool) and no `arguments`. -/
theorem C2_witness :
    ((fieldOf [("name", Json.str "other")] "name").eqStr
        defaultBridge.tool.name = false →
      _handle_tools_call defaultBridge (.success .null)
        (.obj [("id", .num 5), ("params", .obj [("name", .str "other")])]) =
        .ok (none,
          [rpcError (fieldOf [("id", Json.num 5),
              ("params", Json.obj [("name", Json.str "other")])] "id") (-32602)
            ("Unsupported tool \x27"
              ++ pyStr (fieldOf [("name", Json.str "other")] "name") ++ "\x27")])) ∧
    ((fieldOf [("name", Json.str "other")] "name").eqStr
        defaultBridge.tool.name = true →
      (fieldOf [("name", Json.str "other")] "arguments").isObj = false →
      _handle_tools_call defaultBridge (.success .null)
        (.obj [("id", .num 5), ("params", .obj [("name", .str "other")])]) =
        .ok (none,
          [rpcError (fieldOf [("id", Json.num 5),
              ("params", Json.obj [("name", Json.str "other")])] "id") (-32602)
            "Tool arguments must be an object"])) ∧
    (∀ af, (fieldOf [("name", Json.str "other")] "name").eqStr
        defaultBridge.tool.name = true →
      fieldOf [("name", Json.str "other")] "arguments" = .obj af →
      actionValid (fieldOf af "action") = false →
      _handle_tools_call defaultBridge (.success .null)
        (.obj [("id", .num 5), ("params", .obj [("name", .str "other")])]) =
        .ok (none,
          [rpcError (fieldOf [("id", Json.num 5),
              ("params", Json.obj [("name", Json.str "other")])] "id") (-32602)
            "Tool arguments must include non-empty \x27action\x27"])) ∧
    (∀ af, (fieldOf [("name", Json.str "other")] "name").eqStr
        defaultBridge.tool.name = true →
      fieldOf [("name", Json.str "other")] "arguments" = .obj af →
      actionValid (fieldOf af "action") = true →
      (fieldOf af "payload").isObj = false →
      ∃ out, _handle_tools_call defaultBridge (.success .null)
        (.obj [("id", .num 5), ("params", .obj [("name", .str "other")])]) =
        .ok (some (Json.obj
          [("action", fieldOf af "action"),
           ("payload", Json.null),
           ("call_id", fieldOf [("name", Json.str "other")] "callId"),
           ("tool", fieldOf [("name", Json.str "other")] "name"),
           ("arguments", fieldOf [("name", Json.str "other")] "arguments")]),
          [out])) :=
  C2_tools_call_validation defaultBridge (.success .null)
    [("id", .num 5), ("params", .obj [("name", .str "other")])]
    [("name", Json.str "other")] rfl

/-- C3: on a valid `tools/call`, a webhook HTTP-status failure is reported
as JSON-RPC error −32010 whose message embeds the HTTP status and the
response body truncated to 2000 characters; any other webhook failure
(network, timeout, client not ready) is reported as error −32001 carrying
the failure's message text. Both echo the request id. -/
theorem C3_webhook_failure_codes (bridge : XiaozhiMCPBridge)
    (fs pf af : List (String × Json))
    (hp : fieldOf fs "params" = .obj pf)
    (hname : (fieldOf pf "name").eqStr bridge.tool.name = true)
    (hargs : fieldOf pf "arguments" = .obj af)
    (haction : actionValid (fieldOf af "action") = true) :
    (∀ status body, ∃ posted,
      _handle_tools_call bridge (.httpError status body) (.obj fs) =
        .ok (some posted, [rpcError (fieldOf fs "id") (-32010)
          ("Gmail webhook returned HTTP " ++ toString status ++ ": "
            ++ body.take 2000)])) ∧
    (∀ msg, ∃ posted,
      _handle_tools_call bridge (.otherError msg) (.obj fs) =
        .ok (some posted, [rpcError (fieldOf fs "id") (-32001)
          ("Gmail agent error: " ++ msg)])) := by
  constructor
  · intro status body
    simp only [ _handle_tools_call, pyGet_obj, hp, orEmptyObj_obj, hname, hargs]
    cases hac : fieldOf af "action" <;> rw [hac] at haction <;>
      simp only [actionValid] at haction
    case str a =>
      have h : (pyStrip a == "") = false := by
        cases h2 : pyStrip a == ""
        · rfl
        · simp [bne, h2] at haction
      simp only [hac, h, Bool.false_eq_true, if_false]
      exact ⟨_, rfl⟩
    all_goals cases haction
  · intro msg
    simp only [ _handle_tools_call, pyGet_obj, hp, orEmptyObj_obj, hname, hargs]
    cases hac : fieldOf af "action" <;> rw [hac] at haction <;>
      simp only [actionValid] at haction
    case str a =>
      have h : (pyStrip a == "") = false := by
        cases h2 : pyStrip a == ""
        · rfl
        · simp [bne, h2] at haction
      simp only [hac, h, Bool.false_eq_true, if_false]
      exact ⟨_, rfl⟩
    all_goals cases haction

/-- Witness for C3 at the spec's example: a valid call whose webhook
returns HTTP 500 with body `boom` (message embeds both), and one whose
webhook raises a plain failure. -/
theorem C3_witness :
    (∀ status body, ∃ posted,
      _handle_tools_call defaultBridge (.httpError status body)
        (.obj [("id", .num 4), ("params", .obj
          [("name", .str "gmail_action"),
           ("arguments", .obj [("action", .str "send")])])]) =
        .ok (some posted, [rpcError
          (fieldOf [("id", Json.num 4), ("params", Json.obj
            [("name", Json.str "gmail_action"),
             ("arguments", Json.obj [("action", Json.str "send")])])] "id")
          (-32010)
          ("Gmail webhook returned HTTP " ++ toString status ++ ": "
            ++ body.take 2000)])) ∧
    (∀ msg, ∃ posted,
      _handle_tools_call defaultBridge (.otherError msg)
        (.obj [("id", .num 4), ("params", .obj
          [("name", .str "gmail_action"),
           ("arguments", .obj [("action", .str "send")])])]) =
        .ok (some posted, [rpcError
          (fieldOf [("id", Json.num 4), ("params", Json.obj
            [("name", Json.str "gmail_action"),
             ("arguments", Json.obj [("action", Json.str "send")])])] "id")
          (-32001) ("Gmail agent error: " ++ msg)])) :=
  C3_webhook_failure_codes defaultBridge _ _ _ rfl rfl rfl rfl

/-- C4 counterexample: `\x7b"message": " "\x7d` has a `message` field that
is a non-empty string, yet the content text is the serialization of the
whole object, not that string — the code additionally requires the message
to be non-blank after stripping. -/
theorem C4_counterexample :
    Json.str " " ≠ Json.str "" ∧
    _format_webhook_response (.obj [("message", .str " ")]) =
      "\x7b\"message\": \" \"\x7d" ∧
    "\x7b\"message\": \" \"\x7d" ≠ " " := by
  refine ⟨fun h => ?_, rfl, by decide⟩
  injection h with h2
  exact absurd h2 (by decide)

/-- C4 (amended): when the webhook returns a JSON object, the result
content text is the object's `message` field whenever that field is a
string that is non-empty after trimming whitespace, and otherwise — a
missing, non-string, or whitespace-only `message` — the JSON serialization
of the whole object. -/
theorem C4_object_response_text (fs : List (String × Json)) :
    (∀ m, fieldOf fs "message" = .str m → pyStrip m ≠ "" →
      _format_webhook_response (.obj fs) = m) ∧
    ((∀ m, fieldOf fs "message" = .str m → pyStrip m = "") →
      _format_webhook_response (.obj fs) = Json.dumps (.obj fs)) := by
  cases hl : fs.lookup "message" with
  | none =>
      constructor
      · intro m hm
        rw [fieldOf, hl] at hm
        cases hm
      · intro _
        simp only [ _format_webhook_response, hl]
  | some v =>
      have hf : fieldOf fs "message" = v := by rw [fieldOf, hl]; rfl
      cases v with
      | str m0 =>
          constructor
          · intro m hm hne
            rw [hf] at hm
            injection hm with h2
            subst h2
            have hb : (pyStrip m0 != "") = true := by
              cases h2 : pyStrip m0 == ""
              · simp [bne, h2]
              · exact absurd (by simpa using h2) hne
            simp only [ _format_webhook_response, hl, hb]
            rfl
          · intro hall
            have h0 : pyStrip m0 = "" := hall m0 hf
            simp only [ _format_webhook_response, hl, h0]
            rfl
      | null =>
          refine ⟨fun m hm => ?_, fun _ => ?_⟩
          · rw [hf] at hm; cases hm
          · simp only [ _format_webhook_response, hl]
      | bool b =>
          refine ⟨fun m hm => ?_, fun _ => ?_⟩
          · rw [hf] at hm; cases hm
          · simp only [ _format_webhook_response, hl]
      | num n =>
          refine ⟨fun m hm => ?_, fun _ => ?_⟩
          · rw [hf] at hm; cases hm
          · simp only [ _format_webhook_response, hl]
      | arr xs =>
          refine ⟨fun m hm => ?_, fun _ => ?_⟩
          · rw [hf] at hm; cases hm
          · simp only [ _format_webhook_response, hl]
      | obj xs =>
          refine ⟨fun m hm => ?_, fun _ => ?_⟩
          · rw [hf] at hm; cases hm
          · simp only [ _format_webhook_response, hl]

/-- Witness for C4 at the spec's examples: `message` `"hi"` yields exactly
`hi`; an object without `message` yields its serialization. -/
theorem C4_witness :
    _format_webhook_response (.obj [("message", .str "hi")]) = "hi" ∧
    _format_webhook_response (.obj [("foo", .str "bar")]) =
      Json.dumps (.obj [("foo", .str "bar")]) :=
  ⟨(C4_object_response_text [("message", Json.str "hi")]).1 "hi" rfl (by decide),
   (C4_object_response_text [("foo", Json.str "bar")]).2
     (fun m hm => Json.noConfusion hm)⟩

/-- C5 counterexample: the single conforming element has `output` `" a "`,
but the content text is the trimmed `"a"`, not the `output` string field
itself — the code appends `output.strip()`. -/
theorem C5_counterexample :
    _format_webhook_response (.arr [.obj [("output", .str " a ")]]) = "a" ∧
    "a" ≠ " a " :=
  ⟨rfl, by decide⟩

/-- The contribution of one array element to the content text: its `output`
field trimmed, provided the element is an object whose `output` is a
string with non-blank content; `none` otherwise. -/
def outputOf : Json → Option String
  | .obj fs =>
      match fs.lookup "output" with
      | some (.str s) => if pyStrip s != "" then some (pyStrip s) else none
      | _ => none
  | _ => none

theorem collectStep_eq (acc : List String) (item : Json) :
    collectStep acc item = acc ++ (outputOf item).toList := by
  cases item <;> simp only [collectStep, outputOf, Option.toList, List.append_nil]
  next fs =>
    cases hl : fs.lookup "output" with
    | none => simp
    | some v =>
        cases v <;> simp
        next s =>
          by_cases h : pyStrip s = "" <;> simp [h]

theorem foldl_collectStep (items : List Json) :
    ∀ acc, items.foldl collectStep acc = acc ++ items.filterMap outputOf := by
  induction items with
  | nil => intro acc; simp
  | cons item rest ih =>
      intro acc
      rw [List.foldl_cons, collectStep_eq, ih]
      cases h : outputOf item <;> simp [List.filterMap_cons, h]

theorem collectOutputs_eq (items : List Json) :
    collectOutputs items = items.filterMap outputOf := by
  rw [collectOutputs, foldl_collectStep]
  rfl

/-- C5 (amended): when the webhook returns a JSON array, the result content
text concatenates each element's trimmed `output` string field — skipping
elements that are not objects or whose `output` is not a string or is
whitespace-only — separated by blank lines (`"\n\n"`), and is the
serialization of the whole array when no outputs are found. -/
theorem C5_array_response_text (items : List Json) :
    (items.filterMap outputOf ≠ [] →
      _format_webhook_response (.arr items) =
        String.intercalate "\n\n" (items.filterMap outputOf)) ∧
    (items.filterMap outputOf = [] →
      _format_webhook_response (.arr items) = Json.dumps (.arr items)) := by
  constructor
  · intro hne
    have hb : (items.filterMap outputOf).isEmpty = false := by
      cases h : items.filterMap outputOf
      · exact absurd h hne
      · rfl
    simp only [ _format_webhook_response, collectOutputs_eq, hb]
    rfl
  · intro he
    have hb : (items.filterMap outputOf).isEmpty = true := by
      rw [he]
      rfl
    simp only [ _format_webhook_response, collectOutputs_eq, hb]
    rfl

/-- Witness for C5 at the spec's example:
`[..output a.., ..output b..]` yields `"a\n\nb"`. -/
theorem C5_witness :
    _format_webhook_response
      (.arr [.obj [("output", .str "a")], .obj [("output", .str "b")]]) =
      "a\n\nb" := by
  have h := (C5_array_response_text
    [.obj [("output", Json.str "a")], .obj [("output", Json.str "b")]]).1
    (by decide)
  rw [h]
  rfl

/-- C8 counterexample: this `tools/call` supplies `callId` `0` (a value,
distinct from absent), the call succeeds, yet the result object carries no
`callId` field — the code gates the pass-through on Python truthiness
(`if call_id:`), which drops `0`, `false`, `""` and other falsy values. -/
theorem C8_counterexample :
    Json.num 0 ≠ Json.null ∧
    _handle_tools_call defaultBridge (.success (.str "ok"))
      (.obj [("id", .num 7), ("params", .obj
        [("name", .str "gmail_action"),
         ("arguments", .obj [("action", .str "go")]),
         ("callId", .num 0)])]) =
      .ok (some (Json.obj
        [("action", .str "go"), ("payload", .null), ("call_id", .num 0),
         ("tool", .str "gmail_action"),
         ("arguments", .obj [("action", .str "go")])]),
        [rpcResult (.num 7) (.obj
          [("content", .arr [.obj [("type", .str "text"), ("text", .str "ok")]]),
           ("isError", .bool false)])]) ∧
    lookupField (Json.obj
      [("content", .arr [.obj [("type", .str "text"), ("text", .str "ok")]]),
       ("isError", .bool false)]) "callId" = none :=
  ⟨fun h => Json.noConfusion h, rfl, rfl⟩

/-- C8 (amended): on a successful `tools/call`, the result object carries
the supplied `callId` as a pass-through field (distinct from the JSON-RPC
`id`) exactly when that `callId` is truthy in the Python sense; an absent,
null, or otherwise falsy `callId` (`0`, `false`, `""`, empty containers) is
omitted from the result. -/
theorem C8_callId_passthrough (bridge : XiaozhiMCPBridge) (data : Json)
    (fs pf af : List (String × Json))
    (hp : fieldOf fs "params" = .obj pf)
    (hname : (fieldOf pf "name").eqStr bridge.tool.name = true)
    (hargs : fieldOf pf "arguments" = .obj af)
    (haction : actionValid (fieldOf af "action") = true) :
    ∃ posted res, _handle_tools_call bridge (.success data) (.obj fs) =
      .ok (some posted, [rpcResult (fieldOf fs "id") res]) ∧
      lookupField res "callId" =
        (if (fieldOf pf "callId").truthy then some (fieldOf pf "callId")
         else none) := by
  simp only [ _handle_tools_call, pyGet_obj, hp, orEmptyObj_obj, hname, hargs]
  cases hac : fieldOf af "action" <;> rw [hac] at haction <;>
    simp only [actionValid] at haction
  case str a =>
    have h : (pyStrip a == "") = false := by
      cases h2 : pyStrip a == ""
      · rfl
      · simp [bne, h2] at haction
    simp only [hac, h, Bool.false_eq_true, if_false]
    cases hct : (fieldOf pf "callId").truthy
    · simp only [hct, Bool.false_eq_true, if_false]
      exact ⟨_, _, rfl, rfl⟩
    · simp only [hct, if_true]
      exact ⟨_, _, rfl, rfl⟩
  all_goals cases haction

/-- Witness for C8: a call supplying the truthy `callId` `"c1"` gets it
passed through in the result object. -/
theorem C8_witness :
    ∃ posted res, _handle_tools_call defaultBridge (.success (.str "ok"))
      (.obj [("id", .num 8), ("params", .obj
        [("name", .str "gmail_action"),
         ("arguments", .obj [("action", .str "go")]),
         ("callId", .str "c1")])]) =
      .ok (some posted,
        [rpcResult (fieldOf [("id", Json.num 8), ("params", Json.obj
          [("name", Json.str "gmail_action"),
           ("arguments", Json.obj [("action", Json.str "go")]),
           ("callId", Json.str "c1")])] "id") res]) ∧
      lookupField res "callId" =
        (if (fieldOf [("name", Json.str "gmail_action"),
              ("arguments", Json.obj [("action", Json.str "go")]),
              ("callId", Json.str "c1")] "callId").truthy
         then some (fieldOf [("name", Json.str "gmail_action"),
              ("arguments", Json.obj [("action", Json.str "go")]),
              ("callId", Json.str "c1")] "callId")
         else none) :=
  C8_callId_passthrough defaultBridge (.str "ok") _ _ _ rfl rfl rfl rfl

theorem sleeps_connect (l : List RunEvent) :
    sleeps (.connect :: l) = sleeps l := rfl

theorem sleeps_sleep (d : Rat) (l : List RunEvent) :
    sleeps (.sleep d :: l) = d :: sleeps l := rfl

/-- C6 counterexample: with base delay 100 the first failed attempt waits
100 seconds — the code sleeps the current backoff before capping
(`await asyncio.sleep(backoff)` precedes `backoff = min(backoff * 2, 60)`),
so the wait exceeds the ceiling 60. -/
theorem C6_counterexample :
    run { defaultBridge with reconnect_delay := 100 } [(false, true)] =
      [RunEvent.connect, RunEvent.sleep 100] ∧
    ¬ ((100 : Rat) ≤ 60) :=
  ⟨by decide, by decide⟩

/-- C6 (amended): reconnect backoff starts at the configured base delay;
after every failed attempt the loop waits `backoff` seconds and then
doubles it, capping the stored value at the ceiling 60; provided the base
delay is at most 60, no wait ever exceeds 60 (a base above 60 makes the
first wait exceed the ceiling); backoff resets to the base delay
immediately after any successful connection; and for the default base 5
the waits after seven straight failures are 5, 10, 20, 40, 60, 60, 60. -/
theorem C6_backoff_capped (base b : Rat) (sched : List (Bool × Bool))
    (hbase : base ≤ 60) (hb : b ≤ 60) :
    (∀ d ∈ sleeps (runLoop base b sched), d ≤ 60) ∧
    (∀ rest, runLoop base b ((false, false) :: rest) =
      .connect :: runLoop base base rest) ∧
    (∀ rest, runLoop base b ((false, true) :: rest) =
      .connect :: .sleep b :: runLoop base (min (b * 2) 60) rest) ∧
    sleeps (run defaultBridge (List.replicate 7 (false, true))) =
      [5, 10, 20, 40, 60, 60, 60] := by
  refine ⟨?_, fun rest => rfl, fun rest => rfl, ?_⟩
  · have general : ∀ (sched : List (Bool × Bool)) (b : Rat), b ≤ 60 →
        ∀ d ∈ sleeps (runLoop base b sched), d ≤ 60 := by
      intro sched
      induction sched with
      | nil => intro b hb d hd; simp [runLoop, sleeps] at hd
      | cons head rest ih =>
          intro b hb d hd
          obtain ⟨stopSet, fails⟩ := head
          cases stopSet
          · cases fails
            · rw [show runLoop base b ((false, false) :: rest) =
                  .connect :: runLoop base base rest from rfl,
                sleeps_connect] at hd
              exact ih base hbase d hd
            · rw [show runLoop base b ((false, true) :: rest) =
                  .connect :: .sleep b :: runLoop base (min (b * 2) 60) rest from rfl,
                sleeps_connect, sleeps_sleep] at hd
              rcases List.mem_cons.mp hd with rfl | hd2
              · exact hb
              · exact ih (min (b * 2) 60) (min_le_right _ _) d hd2
          · rw [show runLoop base b ((true, fails) :: rest) = [] from rfl] at hd
            simp [sleeps] at hd
    exact general sched b hb
  · norm_num [run, runLoop, sleeps, defaultBridge, min_def, List.replicate,
      List.filterMap_cons]

/-- Witness for C6: base 5, two failures then a success. -/
theorem C6_witness :
    (∀ d ∈ sleeps (runLoop 5 5 [(false, true), (false, true), (false, false)]),
      d ≤ 60) ∧
    (∀ rest, runLoop 5 (5 : Rat) ((false, false) :: rest) =
      .connect :: runLoop 5 5 rest) ∧
    (∀ rest, runLoop 5 (5 : Rat) ((false, true) :: rest) =
      .connect :: .sleep 5 :: runLoop 5 (min (5 * 2) 60) rest) ∧
    sleeps (run defaultBridge (List.replicate 7 (false, true))) =
      [5, 10, 20, 40, 60, 60, 60] :=
  C6_backoff_capped 5 5 [(false, true), (false, true), (false, false)]
    (by decide) (by decide)

/-- C7: a stop request is idempotent (setting the already-set `_stopping`
event changes nothing) and monotone; and once the stop event is set at
every subsequent loop-head check, the loop makes no further connection
attempts and `run()` returns — its trace is exactly the trace of the
iterations before the stop, and the trace function is total (the generic
handler converts every cycle error into backoff-and-retry, so nothing
escapes as an exception). -/
theorem C7_stop_ends_run (base b : Rat) (pre post : List (Bool × Bool))
    (hpost : ∀ e ∈ post, e.1 = true) :
    (∀ s : BridgeState, stop (stop s) = stop s) ∧
    (∀ s : BridgeState, (stop s).stopping = true) ∧
    runLoop base b (pre ++ post) = runLoop base b pre := by
  refine ⟨fun s => rfl, fun s => rfl, ?_⟩
  induction pre generalizing b with
  | nil =>
      simp only [List.nil_append]
      cases post with
      | nil => rfl
      | cons e rest =>
          obtain ⟨stopSet, fails⟩ := e
          have h : stopSet = true := hpost (stopSet, fails) (by simp)
          subst h
          rfl
  | cons head rest ih =>
      obtain ⟨stopSet, fails⟩ := head
      cases stopSet
      · cases fails
        · show RunEvent.connect :: runLoop base base (rest ++ post) =
            RunEvent.connect :: runLoop base base rest
          rw [ih base]
        · show RunEvent.connect :: .sleep b ::
              runLoop base (min (b * 2) 60) (rest ++ post) =
            RunEvent.connect :: .sleep b :: runLoop base (min (b * 2) 60) rest
          rw [ih (min (b * 2) 60)]
      · rfl

/-- Witness for C7: one failing iteration, then the stop event is set. -/
theorem C7_witness :
    (∀ s : BridgeState, stop (stop s) = stop s) ∧
    (∀ s : BridgeState, (stop s).stopping = true) ∧
    runLoop 5 5 ([(false, true)] ++ [(true, false), (true, true)]) =
      runLoop 5 5 [(false, true)] :=
  C7_stop_ends_run 5 5 [(false, true)] [(true, false), (true, true)] (by decide)
